import Mathlib

/-!
Verification development for the `next-csrf` middleware package
(`@opensourceframework/next-csrf`): a shallow embedding of its two
middlewares (`setup` and `csrf`), of the option-merging entry point
`nextCsrf`, and of the small cookie helpers, together with theorems
settling the specification claims.

Modelling decisions (the spec itself excludes these as external
collaborators, so they are abstracted):
  * The cookie header is carried in already-parsed form, as an
    optional association list (`none` models an absent `cookie`
    header).  Cookie-name lookup is exact string matching, first
    occurrence wins, as in the `cookie` npm library's `parse`.
  * `serialize` from the `cookie` library is modelled as the record
    constructor of `SerializedCookie`: a Set-Cookie directive is its
    name, value and attribute record.
  * The token-hashing and HMAC primitives (the `csrf` and
    `cookie-signature` npm libraries) are a parameter `TokenPrims`:
    every theorem quantifies over them, and concrete witnesses use a
    small executable instance.
  * JavaScript truthiness on `string | null | undefined` values is
    `Option String` with falsiness for `none` and for `some ""`.
  * A thrown JS error is an `Except.error` carrying an optional HTTP
    status and a message; the `try/catch` of the validation middleware
    becomes explicit propagation into the result record.
-/

namespace NextCsrf

/-- Cookie serialization attributes (`CookieSerializeOptions` of the
`cookie` library); each attribute is optional, absent attributes are
omitted from the directive. -/
structure CookieSerializeOptions where
  httpOnly : Option Bool
  path : Option String
  sameSite : Option String
  secure : Option Bool
deriving Repr, DecidableEq

/-- One Set-Cookie directive: the output of `serialize(name, value, options)`. -/
structure SerializedCookie where
  name : String
  value : String
  options : CookieSerializeOptions
deriving Repr, DecidableEq

/-- `serialize` of the `cookie` library, abstracted to the directive record. -/
def serialize (name : String) (value : String) (options : CookieSerializeOptions) :
    SerializedCookie :=
  ⟨name, value, options⟩

/-- An incoming request as the middlewares see it: `req.method` (absent or
non-string modelled as `none`) and the `cookie` header, already parsed
(`none` models `req.headers?.cookie === undefined`). -/
structure NextRequest where
  method : Option String
  cookieHeader : Option (List (String × String))

/-- A thrown JS error as the catch block sees it: optional `status`
field and a `message`. -/
structure JsError where
  status : Option Nat
  message : String
deriving Repr, DecidableEq

/-- The `HttpError` class constructor (`src/utils/httpError.ts`): its
`status` parameter defaults to 403, so a constructed instance always
carries a concrete status. -/
def HttpErrorMk (status : Option Nat) (message : String) : JsError :=
  ⟨some (status.getD 403), message⟩

/-- The cryptographic collaborators: `new Tokens()` of the `csrf`
library (`secretSync`, `create`, `verify`) and `sign`/`unsign` of
`cookie-signature`.  `unsign` returns `none` for the invalid marker. -/
structure TokenPrims where
  secretSync : String
  create : String → String
  verify : String → String → Bool
  sign : String → String → String
  unsign : String → String → Option String

/-- JavaScript falsiness of a `string | null | undefined` value:
`undefined`/`null` and the empty string are falsy. -/
def jsFalsy : Option String → Bool
  | none => true
  | some s => s == ""

/-- JavaScript `a || b` on a `string | null | undefined` value `a` with a
string fallback `b`. -/
def jsOrString : Option String → String → String
  | none, d => d
  | some v, d => if v == "" then d else v

/-- `getCookie` (`src/utils/get-cookie.ts`): parse the cookie header and
return the value at `name`; `none` when the header is absent or the
name is not present (the 0.2.5 null-returning version). -/
def getCookie (req : NextRequest) (name : String) : Option String :=
  match req.cookieHeader with
  | some parsed => parsed.lookup name
  | none => none

/-- JavaScript `String.prototype.toLowerCase`, restricted to its ASCII
behavior, which is all the middleware applies it to. -/
def jsToLowerCase (s : String) : String :=
  String.mk (s.data.map Char.toLower)

/-- `getSecret` (`src/utils/get-secret.ts`): looks the cookie up under
the LOWERCASED token key. -/
def getSecret (req : NextRequest) (tokenKey : String) : Option String :=
  getCookie req (jsToLowerCase tokenKey)

/-- Options handed to the setup middleware (`SetupMiddlewareArgs`). -/
structure SetupMiddlewareArgs where
  tokenKey : String
  cookieOptions : CookieSerializeOptions
  secret : Option String

/-- Options handed to the validation middleware (`MiddlewareArgs`). -/
structure MiddlewareArgs where
  ignoredMethods : List String
  csrfErrorMessage : String
  tokenKey : String
  cookieOptions : CookieSerializeOptions
  secret : Option String

/-- The token value stored in the token cookie: `createToken.create`
applied to the per-client secret, signed with the application key when
one is configured.  This is the shape used both by `setup` and by the
rotation step of `csrf`. -/
def makeToken (P : TokenPrims) (secret : Option String) (csrfSecret : String) : String :=
  match secret with
  | some key => P.sign (P.create csrfSecret) key
  | none => P.create csrfSecret

/-- The per-client secret the setup middleware uses:
`getSecret(req, 'csrfSecret') || createToken.secretSync()`. -/
def setupSecret (P : TokenPrims) (req : NextRequest) : String :=
  jsOrString (getSecret req "csrfSecret") P.secretSync

/-- Observable effect of one run of the setup middleware: the single
`res.setHeader('Set-Cookie', [...])` write and the fact that the
wrapped handler is then invoked with the original request. -/
structure SetupResult where
  cookies : List SerializedCookie
  handlerInvoked : Bool
deriving Repr, DecidableEq

/-- The setup middleware (`src/middleware/setup.ts`), after the
two-shape argument normalization: read or create the secret, derive and
optionally sign the token, emit both cookies in one header write, then
invoke the handler. -/
def setup (P : TokenPrims) (args : SetupMiddlewareArgs) (req : NextRequest) : SetupResult :=
  let csrfSecret := setupSecret P req
  let token := makeToken P args.secret csrfSecret
  { cookies := [serialize "csrfSecret" csrfSecret args.cookieOptions,
                serialize args.tokenKey token args.cookieOptions],
    handlerInvoked := true }

/-- Observable effect of one run of the validation middleware: whether
the wrapped handler was invoked, the middleware's own Set-Cookie
writes, and the `res.status(s).json({message})` response produced by
the catch block (`none` when no rejection response was written). -/
structure CsrfResult where
  handlerInvoked : Bool
  setCookieWrites : List SerializedCookie
  rejection : Option (Nat × String)
deriving Repr, DecidableEq

/-- The catch block of the validation middleware:
`res.status(error.status ?? 500).json({ message: error.message })`. -/
def catchBlock (handlerInvoked : Bool) (writes : List SerializedCookie)
    (e : JsError) : CsrfResult :=
  ⟨handlerInvoked, writes, some (e.status.getD 500, e.message)⟩

/-- The validation middleware (`src/middleware/csrf.ts`), step by step:
method check, ignored-method short-circuit, cookie-header presence,
token and secret extraction, optional unsign, verify, rotation, and
delegation, the whole body inside the try whose catch is
`catchBlock`. -/
def csrf (P : TokenPrims) (args : MiddlewareArgs)
    (handler : NextRequest → Except JsError Unit) (req : NextRequest) : CsrfResult :=
  match req.method with
  | none => catchBlock false [] (HttpErrorMk (some 403) args.csrfErrorMessage)
  | some method =>
    if args.ignoredMethods.contains method then
      match handler req with
      | .ok _ => ⟨true, [], none⟩
      | .error e => catchBlock true [] e
    else
      match req.cookieHeader with
      | none => catchBlock false [] (HttpErrorMk (some 403) args.csrfErrorMessage)
      | some cookie =>
        let token := cookie.lookup args.tokenKey
        let csrfSecret := cookie.lookup "csrfSecret"
        if jsFalsy token then
          catchBlock false [] (HttpErrorMk (some 403) args.csrfErrorMessage)
        else if jsFalsy csrfSecret then
          catchBlock false [] (HttpErrorMk (some 403) args.csrfErrorMessage)
        else
          let tokenAfterSig : Option String :=
            match args.secret with
            | some key =>
              let unsignedToken := P.unsign (token.getD "") key
              if jsFalsy unsignedToken then none else some (unsignedToken.getD "")
            | none => some (token.getD "")
          match tokenAfterSig with
          | none => catchBlock false [] (HttpErrorMk (some 403) args.csrfErrorMessage)
          | some workingToken =>
            if !P.verify (csrfSecret.getD "") workingToken then
              catchBlock false [] (HttpErrorMk (some 403) args.csrfErrorMessage)
            else
              let newToken := makeToken P args.secret (csrfSecret.getD "")
              let writes := [serialize args.tokenKey newToken args.cookieOptions]
              match handler req with
              | .ok _ => ⟨true, writes, none⟩
              | .error e => catchBlock true writes e

/-- User-facing option record of `nextCsrf` (`NextCsrfOptions`): every
field optional. -/
structure NextCsrfOptions where
  ignoredMethods : Option (List String)
  csrfErrorMessage : Option String
  tokenKey : Option String
  cookieOptions : Option CookieSerializeOptions
  secret : Option String

/-- `cookieDefaultOptions` of `src/index.ts`; `secure` is the
production-environment flag. -/
def cookieDefaultOptions (isProduction : Bool) : CookieSerializeOptions :=
  { httpOnly := some true
    path := some "/"
    sameSite := some "lax"
    secure := some isProduction }

/-- The option merge of `nextCsrf`: `{...defaultOptions, ...userOptions}`,
a SHALLOW spread - a field supplied by the user wholly replaces the
default value of that field. -/
def mergedOptions (isProduction : Bool) (u : NextCsrfOptions) : MiddlewareArgs :=
  { ignoredMethods := u.ignoredMethods.getD ["GET", "HEAD", "OPTIONS"]
    csrfErrorMessage := u.csrfErrorMessage.getD "Invalid CSRF token"
    tokenKey := u.tokenKey.getD "XSRF-TOKEN"
    cookieOptions := u.cookieOptions.getD (cookieDefaultOptions isProduction)
    secret := u.secret }

/-- The argument record `nextCsrf` passes to the setup middleware. -/
def nextCsrfSetupArgs (isProduction : Bool) (u : NextCsrfOptions) : SetupMiddlewareArgs :=
  { tokenKey := (mergedOptions isProduction u).tokenKey
    cookieOptions := (mergedOptions isProduction u).cookieOptions
    secret := u.secret }

/-- The argument record `nextCsrf` passes to the validation middleware. -/
def nextCsrfCsrfArgs (isProduction : Bool) (u : NextCsrfOptions) : MiddlewareArgs :=
  mergedOptions isProduction u

/-- `nextCsrf()` called with no user options. -/
def emptyOptions : NextCsrfOptions :=
  { ignoredMethods := none
    csrfErrorMessage := none
    tokenKey := none
    cookieOptions := none
    secret := none }

/-- A small executable instance of the cryptographic collaborators,
used to evaluate the middlewares on concrete inputs: `create` tags the
secret, `verify` checks the tag, `sign` appends the key after a bar and
`unsign` strips it back off. -/
def demoPrims : TokenPrims where
  secretSync := "fresh-secret"
  create := fun s => "tok." ++ s
  verify := fun s t => t == "tok." ++ s
  sign := fun v key => v ++ "|" ++ key
  unsign := fun sv key =>
    if sv.endsWith ("|" ++ key) then some (sv.dropRight (key.length + 1)) else none

/-- Concrete validation-middleware options used by witnesses: the
defaults of `nextCsrf`, unsigned. -/
def demoArgs : MiddlewareArgs :=
  { ignoredMethods := ["GET", "HEAD", "OPTIONS"]
    csrfErrorMessage := "Invalid CSRF token"
    tokenKey := "XSRF-TOKEN"
    cookieOptions := cookieDefaultOptions false
    secret := none }

/-- A wrapped handler that always succeeds. -/
def demoOkHandler : NextRequest → Except JsError Unit :=
  fun _ => .ok ()

/-- A wrapped handler that always throws an error carrying no status. -/
def demoThrowingHandler : NextRequest → Except JsError Unit :=
  fun _ => .error ⟨none, "handler exploded"⟩

/-- The user option record of the C10 witness: only `cookieOptions`
supplied, itself only stating `secure`. -/
def partialCookieUser : NextCsrfOptions :=
  { ignoredMethods := none
    csrfErrorMessage := none
    tokenKey := none
    cookieOptions := some ⟨none, none, none, some true⟩
    secret := none }

/-- Lowercasing the secret cookie name: the name `getSecret` actually
looks up. -/
theorem jsToLowerCase_csrfSecret : jsToLowerCase "csrfSecret" = "csrfsecret" := rfl

/-- Claim C1: the setup middleware is meant to re-use a non-empty
`csrfSecret` cookie carried by the request, but `getSecret` looks the
cookie up under the lowercased name `csrfsecret`, which is never the
name (`csrfSecret`) the middleware itself writes; so the existing
secret is never found and a fresh secret is emitted instead, whatever
the carried value `v` is. -/
theorem setup_ignores_existing_csrfSecret_cookie (P : TokenPrims)
    (args : SetupMiddlewareArgs) (m : Option String) (v : String) :
    getSecret ⟨m, some [("csrfSecret", v)]⟩ "csrfSecret" = none ∧
    (setup P args ⟨m, some [("csrfSecret", v)]⟩).cookies.map SerializedCookie.value =
      [P.secretSync, makeToken P args.secret P.secretSync] := by
  have h : getSecret ⟨m, some [("csrfSecret", v)]⟩ "csrfSecret" = none := by
    simp [getSecret, getCookie, jsToLowerCase_csrfSecret, List.lookup]
  exact ⟨h, by simp [setup, setupSecret, serialize, h, jsOrString]⟩

/-- Exhaustive shape of a validation-middleware run: either it rejects
internally (403 with the configured message, handler never invoked, no
cookie written), or it delegates and the handler succeeds, or it
delegates, the handler throws, and the catch converts the error into a
response carrying the error's status (500 when absent) and message. -/
theorem csrf_shape (P : TokenPrims) (args : MiddlewareArgs)
    (handler : NextRequest → Except JsError Unit) (req : NextRequest) :
    csrf P args handler req = ⟨false, [], some (403, args.csrfErrorMessage)⟩ ∨
    (∃ u w, handler req = .ok u ∧ csrf P args handler req = ⟨true, w, none⟩) ∨
    (∃ e w, handler req = .error e ∧
      csrf P args handler req = ⟨true, w, some (e.status.getD 500, e.message)⟩) := by
  simp only [csrf]
  repeat' split
  all_goals try (left; rfl)
  all_goals rename_i v heq
  all_goals first
    | exact Or.inr (Or.inl ⟨v, _, heq, rfl⟩)
    | exact Or.inr (Or.inr ⟨v, _, heq, rfl⟩)

/-- Counterexample to claim C2: a handler that throws behind an
exempt-method request does not have its error propagated; the
middleware's catch block converts it into the middleware's own HTTP
response with status 500 and the error's message. -/
theorem handler_error_becomes_response_counterexample :
    csrf demoPrims demoArgs demoThrowingHandler ⟨some "GET", none⟩ =
      ⟨true, [], some (500, "handler exploded")⟩ :=
  rfl

/-- Claim C2 as amended: whenever the wrapped handler is invoked and
throws, the validation middleware catches the error and responds itself
with the error's status (500 when the error carries none) and the
error's message; handler errors never escape the middleware. -/
theorem handler_error_caught_by_middleware (P : TokenPrims) (args : MiddlewareArgs)
    (handler : NextRequest → Except JsError Unit) (req : NextRequest) (e : JsError)
    (hinv : (csrf P args handler req).handlerInvoked = true)
    (he : handler req = .error e) :
    (csrf P args handler req).rejection = some (e.status.getD 500, e.message) := by
  rcases csrf_shape P args handler req with hs | ⟨u, w, hu, hs⟩ | ⟨e2, w, he2, hs⟩
  · rw [hs] at hinv; simp at hinv
  · rw [he] at hu; cases hu
  · rw [he] at he2
    injection he2 with h2
    subst h2
    rw [hs]

/-- Witness for the amended claim C2 at a concrete throwing handler. -/
theorem handler_error_caught_by_middleware_witness :
    (csrf demoPrims demoArgs demoThrowingHandler ⟨some "GET", none⟩).rejection =
      some ((JsError.mk none "handler exploded").status.getD 500,
        (JsError.mk none "handler exploded").message) :=
  handler_error_caught_by_middleware demoPrims demoArgs demoThrowingHandler
    ⟨some "GET", none⟩ ⟨none, "handler exploded"⟩ rfl rfl

/-- Counterexample to claim C3: a request with no readable method but
with cookies that verify under the configured primitives is rejected
with 403 at the method check, without the handler ever being invoked;
the claim said such a request proceeds to the cookie checks and can
reach the handler. -/
theorem missing_method_rejected_despite_valid_cookies :
    csrf demoPrims demoArgs demoOkHandler
      ⟨none, some [("XSRF-TOKEN", "tok.sec"), ("csrfSecret", "sec")]⟩ =
      ⟨false, [], some (403, "Invalid CSRF token")⟩ ∧
    demoPrims.verify "sec" "tok.sec" = true :=
  ⟨rfl, rfl⟩

/-- Claim C3 as amended: a request whose method is missing or not a
string is rejected immediately at the method check with status 403 and
the configured error message; the cookie checks and the handler are
never reached. -/
theorem missing_method_immediately_rejected (P : TokenPrims) (args : MiddlewareArgs)
    (handler : NextRequest → Except JsError Unit) (req : NextRequest)
    (h : req.method = none) :
    csrf P args handler req = ⟨false, [], some (403, args.csrfErrorMessage)⟩ := by
  simp [csrf, h, catchBlock, HttpErrorMk]

/-- Witness for the amended claim C3 at a concrete request. -/
theorem missing_method_immediately_rejected_witness :
    csrf demoPrims demoArgs demoOkHandler ⟨none, none⟩ =
      ⟨false, [], some (403, demoArgs.csrfErrorMessage)⟩ :=
  missing_method_immediately_rejected demoPrims demoArgs demoOkHandler ⟨none, none⟩ rfl

/-- Claim C4: a request whose method is in the configured
ignored-method set is delegated to the wrapped handler and no
Set-Cookie directive is written by the middleware, whatever the cookie
header holds (including no cookie header at all). -/
theorem ignored_method_delegates_without_cookie_write (P : TokenPrims)
    (args : MiddlewareArgs) (handler : NextRequest → Except JsError Unit)
    (req : NextRequest) (m : String)
    (hm : req.method = some m)
    (hig : args.ignoredMethods.contains m = true) :
    (csrf P args handler req).handlerInvoked = true ∧
    (csrf P args handler req).setCookieWrites = [] := by
  simp only [csrf, hm, hig, if_true]
  cases handler req <;> simp [catchBlock]

/-- Witness for claim C4: a GET request with no cookie header reaches
the handler and no cookie is written. -/
theorem ignored_method_delegates_witness :
    (csrf demoPrims demoArgs demoOkHandler ⟨some "GET", none⟩).handlerInvoked = true ∧
    (csrf demoPrims demoArgs demoOkHandler ⟨some "GET", none⟩).setCookieWrites = [] :=
  ignored_method_delegates_without_cookie_write demoPrims demoArgs demoOkHandler
    ⟨some "GET", none⟩ "GET" rfl rfl

/-- Claim C5: with the defaults of `nextCsrf` (no signing key), a POST
request without a cookie header is not delegated and the middleware
responds 403 with the body message Invalid CSRF token. -/
theorem default_post_without_cookies_rejected (isProduction : Bool) (P : TokenPrims)
    (handler : NextRequest → Except JsError Unit) :
    csrf P (nextCsrfCsrfArgs isProduction emptyOptions) handler ⟨some "POST", none⟩ =
      ⟨false, [], some (403, "Invalid CSRF token")⟩ :=
  rfl

/-- Claim C7: every setup run emits exactly two Set-Cookie directives
in its single header write, the first naming `csrfSecret` with the
per-client secret, the second naming the configured token cookie with
the derived token (signed exactly when a signing key is configured),
both carrying the configured cookie attributes. -/
theorem setup_emits_exactly_two_cookies (P : TokenPrims)
    (args : SetupMiddlewareArgs) (req : NextRequest) :
    (setup P args req).cookies.length = 2 ∧
    (setup P args req).cookies.map SerializedCookie.name = ["csrfSecret", args.tokenKey] ∧
    (∀ c ∈ (setup P args req).cookies, c.options = args.cookieOptions) ∧
    (setup P args req).cookies.map SerializedCookie.value =
      [setupSecret P req, makeToken P args.secret (setupSecret P req)] ∧
    (∀ key, args.secret = some key →
      (setup P args req).cookies.map SerializedCookie.value =
        [setupSecret P req, P.sign (P.create (setupSecret P req)) key]) ∧
    (args.secret = none →
      (setup P args req).cookies.map SerializedCookie.value =
        [setupSecret P req, P.create (setupSecret P req)]) := by
  refine ⟨rfl, rfl, ?_, rfl, ?_, ?_⟩
  · intro c hc
    simp [setup, serialize] at hc
    rcases hc with h | h <;> simp [h, serialize]
  · intro key hk
    simp [setup, serialize, makeToken, hk]
  · intro hk
    simp [setup, serialize, makeToken, hk]

/-- Witness for claim C7 at a concrete unsigned configuration. -/
theorem setup_emits_exactly_two_cookies_witness :
    (setup demoPrims ⟨"XSRF-TOKEN", cookieDefaultOptions false, none⟩
        ⟨some "GET", none⟩).cookies.map SerializedCookie.value =
      [setupSecret demoPrims ⟨some "GET", none⟩,
       demoPrims.create (setupSecret demoPrims ⟨some "GET", none⟩)] :=
  (setup_emits_exactly_two_cookies demoPrims
    ⟨"XSRF-TOKEN", cookieDefaultOptions false, none⟩ ⟨some "GET", none⟩).2.2.2.2.2 rfl

/-- Claim C6: a request that reaches the verify step and passes it has
exactly one Set-Cookie directive written by the middleware, naming only
the configured token cookie and holding the rotated token (signed
exactly when a signing key is configured); no directive for
`csrfSecret` is written on this path. -/
theorem verified_request_rotates_only_token_cookie (P : TokenPrims)
    (args : MiddlewareArgs) (handler : NextRequest → Except JsError Unit)
    (req : NextRequest) (m : String) (cookie : List (String × String)) (t s : String)
    (hm : req.method = some m)
    (hig : args.ignoredMethods.contains m = false)
    (hch : req.cookieHeader = some cookie)
    (ht : cookie.lookup args.tokenKey = some t)
    (hs : cookie.lookup "csrfSecret" = some s)
    (ht0 : t ≠ "") (hs0 : s ≠ "")
    (hsig : match args.secret with
      | some key => ∃ u, P.unsign t key = some u ∧ u ≠ "" ∧ P.verify s u = true
      | none => P.verify s t = true) :
    (csrf P args handler req).setCookieWrites =
      [serialize args.tokenKey (makeToken P args.secret s) args.cookieOptions] ∧
    (csrf P args handler req).setCookieWrites.map SerializedCookie.name =
      [args.tokenKey] := by
  have hw : (csrf P args handler req).setCookieWrites =
      [serialize args.tokenKey (makeToken P args.secret s) args.cookieOptions] := by
    simp only [csrf, hm, hch, ht, hs]
    simp only [hig, Bool.false_eq_true, if_false]
    cases hsec : args.secret with
    | none =>
      rw [hsec] at hsig
      simp [jsFalsy, ht0, hs0, hsig]
      cases handler req <;> simp [catchBlock]
    | some key =>
      rw [hsec] at hsig
      obtain ⟨u, hu, hu0, hv⟩ := hsig
      simp [jsFalsy, ht0, hs0, hu, hu0, hv]
      cases handler req <;> simp [catchBlock]
  exact ⟨hw, by rw [hw]; rfl⟩

/-- Witness for claim C6: a verified unsigned POST request rotates the
token cookie and writes nothing else. -/
theorem verified_request_rotates_only_token_cookie_witness :
    (csrf demoPrims demoArgs demoOkHandler
        ⟨some "POST", some [("XSRF-TOKEN", "tok.sec"), ("csrfSecret", "sec")]⟩).setCookieWrites =
      [serialize "XSRF-TOKEN" (makeToken demoPrims none "sec") (cookieDefaultOptions false)] ∧
    (csrf demoPrims demoArgs demoOkHandler
        ⟨some "POST", some [("XSRF-TOKEN", "tok.sec"), ("csrfSecret", "sec")]⟩).setCookieWrites.map
        SerializedCookie.name = ["XSRF-TOKEN"] :=
  verified_request_rotates_only_token_cookie demoPrims demoArgs demoOkHandler
    ⟨some "POST", some [("XSRF-TOKEN", "tok.sec"), ("csrfSecret", "sec")]⟩
    "POST" [("XSRF-TOKEN", "tok.sec"), ("csrfSecret", "sec")] "tok.sec" "sec"
    rfl rfl rfl rfl rfl (by decide) (by decide) rfl

/-- Claim C8: whenever the validation middleware writes a rejection
response, either the rejection is one of the internal validation
failures, which all carry status 403 and the configured error message,
or it is a caught handler error, whose own status is used (500 when the
error carries no status) together with that error's message. -/
theorem rejection_status_semantics (P : TokenPrims) (args : MiddlewareArgs)
    (handler : NextRequest → Except JsError Unit) (req : NextRequest)
    (st : Nat) (m : String)
    (h : (csrf P args handler req).rejection = some (st, m)) :
    (st = 403 ∧ m = args.csrfErrorMessage) ∨
    (∃ e, handler req = .error e ∧ st = e.status.getD 500 ∧ m = e.message) := by
  rcases csrf_shape P args handler req with hs | ⟨u, w, hu, hs⟩ | ⟨e, w, he, hs⟩
  · rw [hs] at h
    simp at h
    exact Or.inl ⟨h.1.symm, h.2.symm⟩
  · rw [hs] at h
    simp at h
  · rw [hs] at h
    simp at h
    exact Or.inr ⟨e, he, h.1.symm, h.2.symm⟩

/-- Witness for claim C8: the rejection of a cookieless POST carries
status 403 and the configured message. -/
theorem rejection_status_semantics_witness :
    (403 = 403 ∧ "Invalid CSRF token" = demoArgs.csrfErrorMessage) ∨
    (∃ e, demoOkHandler ⟨some "POST", none⟩ = .error e ∧
      403 = e.status.getD 500 ∧ "Invalid CSRF token" = e.message) :=
  rejection_status_semantics demoPrims demoArgs demoOkHandler ⟨some "POST", none⟩
    403 "Invalid CSRF token" rfl

/-- Claim C9: a run of the validation middleware that does not reach
the wrapped handler (every internal rejection) writes no Set-Cookie
directive: rotation happens only after verification succeeds. -/
theorem rejected_request_writes_no_cookie (P : TokenPrims) (args : MiddlewareArgs)
    (handler : NextRequest → Except JsError Unit) (req : NextRequest)
    (h : (csrf P args handler req).handlerInvoked = false) :
    (csrf P args handler req).setCookieWrites = [] := by
  rcases csrf_shape P args handler req with hs | ⟨u, w, hu, hs⟩ | ⟨e, w, he, hs⟩
  · rw [hs]
  · rw [hs] at h; simp at h
  · rw [hs] at h; simp at h

/-- Witness for claim C9 at a rejected cookieless POST. -/
theorem rejected_request_writes_no_cookie_witness :
    (csrf demoPrims demoArgs demoOkHandler ⟨some "POST", none⟩).setCookieWrites = [] :=
  rejected_request_writes_no_cookie demoPrims demoArgs demoOkHandler
    ⟨some "POST", none⟩ rfl

/-- Claim C10: `nextCsrf` merges the user record over the defaults
shallowly; a supplied `cookieOptions` record wholly replaces the
default cookie attributes (in both middlewares' argument records),
while unsupplied fields keep their documented defaults. -/
theorem nextCsrf_shallow_option_merge (isProduction : Bool) (u : NextCsrfOptions) :
    (∀ co, u.cookieOptions = some co →
      (mergedOptions isProduction u).cookieOptions = co) ∧
    (∀ co, u.cookieOptions = some co →
      (nextCsrfSetupArgs isProduction u).cookieOptions = co) ∧
    (u.cookieOptions = none →
      (mergedOptions isProduction u).cookieOptions = cookieDefaultOptions isProduction) ∧
    (u.tokenKey = none → (mergedOptions isProduction u).tokenKey = "XSRF-TOKEN") ∧
    (u.csrfErrorMessage = none →
      (mergedOptions isProduction u).csrfErrorMessage = "Invalid CSRF token") ∧
    (u.ignoredMethods = none →
      (mergedOptions isProduction u).ignoredMethods = ["GET", "HEAD", "OPTIONS"]) := by
  refine ⟨?_, ?_, ?_, ?_, ?_, ?_⟩ <;> intros <;>
    simp [mergedOptions, nextCsrfSetupArgs, *]

/-- Witness for claim C10: supplying a cookie record that only states
`secure` drops the default `httpOnly`, `path` and `sameSite`
attributes. -/
theorem nextCsrf_shallow_option_merge_witness :
    (mergedOptions false partialCookieUser).cookieOptions =
      ⟨none, none, none, some true⟩ :=
  (nextCsrf_shallow_option_merge false partialCookieUser).1 ⟨none, none, none, some true⟩ rfl

end NextCsrf
